import Mathlib

/-!
Shallow embedding of `src/theDatingApp.ts`: a small in-memory dating-app
demo with users, profiles, interest matching and messaging.

TypeScript arrays become Lean lists, class fields become structure fields,
mutating methods become functions returning the updated value, and
`Message | null` becomes `Option Message`.  The JavaScript `Date`
timestamp is abstracted as a natural number supplied by the caller of
`sendMessage` (the ambient clock).
-/

/-- Embeds `class User` from `src/models/User.ts`. -/
structure User where
  id : Nat
  name : String
  email : String
  password : String
deriving DecidableEq, Repr

/-- Embeds `User.verifyPassword`. -/
def User.verifyPassword (u : User) (inputPassword : String) : Bool :=
  u.password == inputPassword

/-- Embeds `class Profile` from `src/models/Profile.ts`; the private
`interests` array is the `interests` field. -/
structure Profile where
  user : User
  age : Nat
  bio : String
  interests : List String
deriving DecidableEq, Repr

/-- Embeds `Profile.addInterest` (an array `push`). -/
def Profile.addInterest (p : Profile) (interest : String) : Profile :=
  { p with interests := p.interests ++ [interest] }

/-- Embeds `Profile.getInterests` (returns a copy of the array). -/
def Profile.getInterests (p : Profile) : List String :=
  p.interests

/-- Embeds `Profile.match` (renamed because `match` is a Lean keyword):
`this.interests.filter(i => otherProfile.interests.includes(i)).length`. -/
def Profile.matchScore (p otherProfile : Profile) : Nat :=
  (p.interests.filter (fun interest => otherProfile.interests.contains interest)).length

/-- Embeds `class Message` from `src/models/Message.ts`. -/
structure Message where
  sender : User
  recipient : User
  content : String
  timestamp : Nat
deriving DecidableEq, Repr

/-- Embeds `MatchMaker.findMatches` from `src/models/MatchMaker.ts`:
filter out the profile's own user id, pair each candidate with
`profile.match(p)`, keep scores `>= minScore`, project the profiles.
The threshold is an `Int` since TypeScript numbers may be negative. -/
def MatchMaker.findMatches (profile : Profile) (potentialMatches : List Profile)
    (minScore : Int) : List Profile :=
  (((potentialMatches.filter (fun p => p.user.id != profile.user.id)).map
      (fun p => (p, profile.matchScore p))).filter
      (fun m => decide ((m.2 : Int) ≥ minScore))).map (fun m => m.1)

/-- Embeds `class DatingService` from `src/services/DatingService.ts`:
three private in-memory arrays. -/
structure DatingService where
  users : List User
  profiles : List Profile
  messages : List Message
deriving DecidableEq, Repr

/-- A freshly constructed service: all three arrays empty. -/
def DatingService.empty : DatingService :=
  ⟨[], [], []⟩

/-- Embeds `DatingService.createUser`: id is `users.length + 1`, the new
user is pushed and returned. -/
def DatingService.createUser (s : DatingService) (name email password : String) :
    User × DatingService :=
  let id := s.users.length + 1
  let user : User := ⟨id, name, email, password⟩
  (user, { s with users := s.users ++ [user] })

/-- Embeds `DatingService.createProfile`: wraps the user (interests start
empty, per the `Profile` constructor), pushes and returns the profile. -/
def DatingService.createProfile (s : DatingService) (user : User) (age : Nat)
    (bio : String) : Profile × DatingService :=
  let profile : Profile := ⟨user, age, bio, []⟩
  (profile, { s with profiles := s.profiles ++ [profile] })

/-- Embeds `DatingService.sendMessage`: resolve the recipient by id with
`users.find`, push and return the message, or return `null` (`none`). -/
def DatingService.sendMessage (s : DatingService) (sender : User) (recipientId : Nat)
    (content : String) (now : Nat) : Option Message × DatingService :=
  match s.users.find? (fun u => u.id == recipientId) with
  | some recipient =>
      let message : Message := ⟨sender, recipient, content, now⟩
      (some message, { s with messages := s.messages ++ [message] })
  | none => (none, s)

/-- Embeds `DatingService.getMessages`: filter of the message array (the
state is untouched; `filter` allocates a fresh array in the source). -/
def DatingService.getMessages (s : DatingService) (userId : Nat) :
    List Message × DatingService :=
  (s.messages.filter (fun m => m.recipient.id == userId || m.sender.id == userId), s)

/-- Embeds `DatingService.findMatches`: delegates to `MatchMaker.findMatches`
over all stored profiles (state untouched). -/
def DatingService.findMatches (s : DatingService) (profile : Profile)
    (minScore : Int) : List Profile × DatingService :=
  (MatchMaker.findMatches profile s.profiles minScore, s)

/-- Service states reachable from a fresh service through the mutating
operations of the façade (the two query operations leave the state as is). -/
inductive DatingService.Reachable : DatingService → Prop
  | empty : Reachable DatingService.empty
  | createUser {s : DatingService} (name email password : String) :
      Reachable s → Reachable (s.createUser name email password).2
  | createProfile {s : DatingService} (user : User) (age : Nat) (bio : String) :
      Reachable s → Reachable (s.createProfile user age bio).2
  | sendMessage {s : DatingService} (sender : User) (recipientId : Nat)
      (content : String) (now : Nat) :
      Reachable s → Reachable (s.sendMessage sender recipientId content now).2

/-- The distinct-intersection count the spec describes for the match score:
number of distinct interest strings present in both profiles. -/
def distinctCommonInterestCount (a b : Profile) : Nat :=
  (a.interests.toFinset ∩ b.interests.toFinset).card

/-- Profiles used as concrete counterexample inputs: a duplicated interest
string on one side. -/
def dupProfileA : Profile :=
  ⟨⟨1, "A", "a@example.com", "pa"⟩, 20, "", ["x", "x"]⟩

def dupProfileB : Profile :=
  ⟨⟨2, "B", "b@example.com", "pb"⟩, 21, "", ["x"]⟩

/-- Alice's demo user (from `src/index.ts`). -/
def aliceUser : User :=
  ⟨1, "Alice", "alice@example.com", "password123"⟩

/-- Bob's demo user (from `src/index.ts`). -/
def bobUser : User :=
  ⟨2, "Bob", "bob@example.com", "password456"⟩

/-- Alice's demo profile after her three `addInterest` calls. -/
def aliceProfile : Profile :=
  ⟨aliceUser, 28, "I love hiking and reading.", ["hiking", "reading", "travel"]⟩

/-- Bob's demo profile after his three `addInterest` calls. -/
def bobProfile : Profile :=
  ⟨bobUser, 32, "Passionate about music and travel.", ["music", "travel", "food"]⟩

/-- When the left profile's interest list has no duplicates, the match
score is the cardinality of the intersection of the two interest sets. -/
lemma matchScore_eq_card_inter (a b : Profile) (h : a.interests.Nodup) :
    a.matchScore b = (a.interests.toFinset ∩ b.interests.toFinset).card := by
  unfold Profile.matchScore
  rw [← List.toFinset_card_of_nodup (h.filter _), List.toFinset_filter,
    ← Finset.filter_mem_eq_inter]
  congr 1
  apply Finset.filter_congr
  intro x hx
  simp [List.contains, List.mem_toFinset]

/-- The `filter`/`map`/`filter`/`map` pipeline of `MatchMaker.findMatches`
collapses to a single `filter` over the candidate list. -/
lemma filter_map_filter_map_eq_filter {α β : Type} (p : α → Bool) (f : α → β)
    (q : β → Bool) :
    ∀ l : List α,
      (((l.filter p).map (fun x => (x, f x))).filter (fun m => q m.2)).map
          (fun m => m.1)
        = l.filter (fun x => p x && q (f x))
  | [] => rfl
  | x :: l => by
      simp only [List.filter_cons]
      cases hp : p x with
      | false => simpa using filter_map_filter_map_eq_filter p f q l
      | true =>
          cases hq : q (f x) with
          | false =>
              simp [List.filter_cons, hq, filter_map_filter_map_eq_filter p f q l]
          | true =>
              simp [List.filter_cons, hq, filter_map_filter_map_eq_filter p f q l]

/-- `findMatches` is the single filter keeping candidates with a different
user id and score at least the threshold, in input order. -/
lemma findMatches_eq_filter (profile : Profile) (cs : List Profile) (minScore : Int) :
    MatchMaker.findMatches profile cs minScore =
      cs.filter (fun c => c.user.id != profile.user.id
        && decide ((profile.matchScore c : Int) ≥ minScore)) := by
  unfold MatchMaker.findMatches
  exact filter_map_filter_map_eq_filter (fun c => c.user.id != profile.user.id)
    (fun c => profile.matchScore c) (fun n => decide ((n : Int) ≥ minScore)) cs

/-- `sendMessage` never touches the user store. -/
lemma sendMessage_users (s : DatingService) (sender : User) (recipientId : Nat)
    (content : String) (now : Nat) :
    (s.sendMessage sender recipientId content now).2.users = s.users := by
  unfold DatingService.sendMessage
  split <;> rfl

/-- `sendMessage` never touches the profile store. -/
lemma sendMessage_profiles (s : DatingService) (sender : User) (recipientId : Nat)
    (content : String) (now : Nat) :
    (s.sendMessage sender recipientId content now).2.profiles = s.profiles := by
  unfold DatingService.sendMessage
  split <;> rfl

/-- `createProfile` never touches the user store. -/
lemma createProfile_users (s : DatingService) (user : User) (age : Nat) (bio : String) :
    (s.createProfile user age bio).2.users = s.users :=
  rfl

/-- In every reachable service state the stored user ids are, in order,
`1, 2, ..., users.length`. -/
lemma DatingService.Reachable.users_map_id {s : DatingService} (h : s.Reachable) :
    s.users.map User.id = List.range' 1 s.users.length := by
  induction h with
  | empty => rfl
  | @createUser s name email password h ih =>
      simp only [DatingService.createUser, List.map_append, List.length_append,
        List.map_cons, List.map_nil, List.length_cons, List.length_nil, ih,
        Nat.zero_add]
      rw [List.range'_1_concat]
      simp [Nat.add_comm 1 s.users.length]
  | createProfile user age bio h ih =>
      rw [createProfile_users]
      exact ih
  | sendMessage sender recipientId content now h ih =>
      rw [sendMessage_users]
      exact ih

/-- In every reachable service state, the user at 0-based index `i` has
id `i + 1`: ids equal 1-based insertion order. -/
lemma DatingService.Reachable.users_id_pos {s : DatingService} (h : s.Reachable) (i : Nat)
    (hi : i < s.users.length) : (s.users.get ⟨i, hi⟩).id = i + 1 := by
  have hmap := h.users_map_id
  have hi2 : i < (s.users.map User.id).length := by simpa using hi
  have e1 : (s.users.map User.id).get ⟨i, hi2⟩ = (s.users.get ⟨i, hi⟩).id := by
    simp [List.get_eq_getElem, List.getElem_map]
  have e2 : (s.users.map User.id).get ⟨i, hi2⟩
      = (List.range' 1 s.users.length).get
          ⟨i, by simpa [List.length_range'] using hi⟩ := by
    exact List.get_of_eq hmap ⟨i, hi2⟩
  rw [e2] at e1
  rw [← e1]
  simp [List.get_eq_getElem, List.getElem_range'_1, Nat.add_comm 1 i]

/-! ## Claim theorems -/

/-- C1 (counterexample): the match score is not symmetric once an interest
list contains a duplicate string: with interests `["x", "x"]` against
`["x"]` the scores are `2` and `1`. -/
theorem matchScore_not_symm :
    dupProfileA.matchScore dupProfileB = 2 ∧
      dupProfileB.matchScore dupProfileA = 1 ∧
      dupProfileA.matchScore dupProfileB ≠ dupProfileB.matchScore dupProfileA := by
  decide

/-- C1 (amended): for profiles whose interest lists contain no duplicate
strings, `A.match(B) = B.match(A)`; duplicates can break symmetry. -/
theorem matchScore_symm_of_nodup (A B : Profile)
    (hA : A.interests.Nodup) (hB : B.interests.Nodup) :
    A.matchScore B = B.matchScore A := by
  rw [matchScore_eq_card_inter A B hA, matchScore_eq_card_inter B A hB,
    Finset.inter_comm]

/-- C1 (witness): the amended symmetry at the duplicate-free demo profiles. -/
theorem matchScore_symm_of_nodup_witness :
    aliceProfile.interests.Nodup ∧ bobProfile.interests.Nodup ∧
      aliceProfile.matchScore bobProfile = bobProfile.matchScore aliceProfile :=
  ⟨by decide, by decide,
    matchScore_symm_of_nodup aliceProfile bobProfile (by decide) (by decide)⟩

/-- C2: `findMatches` returns exactly the candidates whose user id differs
from the profile's and whose score reaches the threshold, as a single
filter of the input list: relative input order is preserved and nothing is
sorted by score. -/
theorem findMatches_spec (profile : Profile) (candidates : List Profile)
    (minScore : Int) :
    MatchMaker.findMatches profile candidates minScore =
      candidates.filter (fun c => c.user.id != profile.user.id
        && decide ((profile.matchScore c : Int) ≥ minScore)) :=
  findMatches_eq_filter profile candidates minScore

/-- C6 (counterexample): with a duplicated interest, the match score is not
the number of distinct common interest strings: `["x", "x"]` against
`["x"]` scores `2` while the distinct common count is `1`. -/
theorem matchScore_ne_distinctCommon :
    dupProfileA.matchScore dupProfileB = 2 ∧
      distinctCommonInterestCount dupProfileA dupProfileB = 1 ∧
      dupProfileA.matchScore dupProfileB
        ≠ distinctCommonInterestCount dupProfileA dupProfileB := by
  decide

/-- C6 (amended): `A.match(B)` counts the entries of `A`'s interest list
(with multiplicity) that occur in `B`'s list; when `A`'s list is
duplicate-free this equals the distinct common-interest count. -/
theorem matchScore_eq_distinctCommon_of_nodup (A B : Profile)
    (hA : A.interests.Nodup) :
    A.matchScore B = distinctCommonInterestCount A B :=
  matchScore_eq_card_inter A B hA

/-- C6 (witness): the amended equality at the duplicate-free demo profiles. -/
theorem matchScore_eq_distinctCommon_of_nodup_witness :
    aliceProfile.interests.Nodup ∧
      aliceProfile.matchScore bobProfile
        = distinctCommonInterestCount aliceProfile bobProfile :=
  ⟨by decide, matchScore_eq_distinctCommon_of_nodup aliceProfile bobProfile (by decide)⟩

/-- C7: a profile is never an element of its own `findMatches` result, the
exclusion being by user id (every returned candidate has a different
user id), for any candidate list and any threshold. -/
theorem findMatches_self_exclusion (profile : Profile) (candidates : List Profile)
    (minScore : Int) :
    profile ∉ MatchMaker.findMatches profile candidates minScore ∧
      ∀ c ∈ MatchMaker.findMatches profile candidates minScore,
        c.user.id ≠ profile.user.id := by
  rw [findMatches_eq_filter]
  refine ⟨fun hmem => ?_, fun c hc => ?_⟩
  · have h2 := (List.mem_filter.mp hmem).2
    simp at h2
  · have h2 := (List.mem_filter.mp hc).2
    simp at h2
    exact h2.1

/-- C7 (witness): the self-exclusion at the demo profiles, with the profile
itself in the candidate list and threshold `0`. -/
theorem findMatches_self_exclusion_witness :
    aliceProfile ∉ MatchMaker.findMatches aliceProfile [aliceProfile, bobProfile] 0 :=
  (findMatches_self_exclusion aliceProfile [aliceProfile, bobProfile] 0).1

/-- C8: the demo profiles with interests `[hiking, reading, travel]` and
`[music, travel, food]` score `1` in either match direction ("travel"). -/
theorem example_match_score_travel :
    aliceProfile.matchScore bobProfile = 1 ∧
      bobProfile.matchScore aliceProfile = 1 := by
  decide

/-- C3: when no stored user carries the recipient id, `sendMessage` returns
`none` (the absence value) and the stored message list, in particular its
length, is unchanged. -/
theorem sendMessage_unknown_recipient (s : DatingService) (sender : User)
    (recipientId : Nat) (content : String) (now : Nat)
    (h : ∀ u ∈ s.users, u.id ≠ recipientId) :
    (s.sendMessage sender recipientId content now).1 = none ∧
      (s.sendMessage sender recipientId content now).2.messages = s.messages ∧
      (s.sendMessage sender recipientId content now).2.messages.length
        = s.messages.length := by
  have hf : s.users.find? (fun u => u.id == recipientId) = none := by
    rw [List.find?_eq_none]
    intro u hu
    simp [h u hu]
  unfold DatingService.sendMessage
  rw [hf]
  exact ⟨rfl, rfl, rfl⟩

/-- C3 (witness): sending to the unused id `99` in a one-user service. -/
theorem sendMessage_unknown_recipient_witness :
    (∀ u ∈ (DatingService.mk [aliceUser] [] []).users, u.id ≠ 99) ∧
      ((DatingService.mk [aliceUser] [] []).sendMessage bobUser 99 "hi" 0).1 = none ∧
      ((DatingService.mk [aliceUser] [] []).sendMessage bobUser 99 "hi" 0).2.messages
        = (DatingService.mk [aliceUser] [] []).messages ∧
      ((DatingService.mk [aliceUser] [] []).sendMessage bobUser 99 "hi" 0).2.messages.length
        = (DatingService.mk [aliceUser] [] []).messages.length :=
  ⟨by decide, sendMessage_unknown_recipient (DatingService.mk [aliceUser] [] [])
    bobUser 99 "hi" 0 (by decide)⟩

/-- C4: `getMessages u` is exactly the filter of the stored message list
keeping messages whose sender id or recipient id is `u`; being a filter it
is a sublist of the store, hence in insertion order. -/
theorem getMessages_spec (s : DatingService) (userId : Nat) :
    (s.getMessages userId).1
        = s.messages.filter
            (fun m => m.sender.id == userId || m.recipient.id == userId) ∧
      (s.getMessages userId).1.Sublist s.messages := by
  constructor
  · apply List.filter_congr
    intro m hm
    exact Bool.or_comm _ _
  · exact List.filter_sublist s.messages

/-- C5: in every reachable service state, `createUser` assigns the next
1-based id, stored ids equal the 1-based insertion position and are
therefore unique, and three users created in a fresh service get ids
`1, 2, 3` regardless of the name/email/password arguments. -/
theorem createUser_id_spec (s : DatingService) (h : s.Reachable) :
    (∀ name email password : String,
        ((s.createUser name email password).1).id = s.users.length + 1) ∧
      (∀ i : Nat, ∀ hi : i < s.users.length, (s.users.get ⟨i, hi⟩).id = i + 1) ∧
      (∀ i j : Nat, ∀ hi : i < s.users.length, ∀ hj : j < s.users.length,
        (s.users.get ⟨i, hi⟩).id = (s.users.get ⟨j, hj⟩).id → i = j) ∧
      (∀ n1 e1 p1 n2 e2 p2 n3 e3 p3 : String,
        (DatingService.empty.createUser n1 e1 p1).1.id = 1 ∧
        ((DatingService.empty.createUser n1 e1 p1).2.createUser n2 e2 p2).1.id = 2 ∧
        (((DatingService.empty.createUser n1 e1 p1).2.createUser n2 e2 p2).2.createUser
            n3 e3 p3).1.id = 3) := by
  refine ⟨fun name email password => rfl, h.users_id_pos, ?_, ?_⟩
  · intro i j hi hj hij
    have h1 := h.users_id_pos i hi
    have h2 := h.users_id_pos j hj
    omega
  · intro n1 e1 p1 n2 e2 p2 n3 e3 p3
    exact ⟨rfl, rfl, rfl⟩

/-- C5 (witness): in the reachable two-user state the first stored user has
id `0 + 1`. -/
theorem createUser_id_spec_witness :
    ((((DatingService.empty.createUser "Alice" "alice@example.com"
          "password123").2.createUser "Bob" "bob@example.com"
          "password456").2).users.get ⟨0, by decide⟩).id = 0 + 1 :=
  (createUser_id_spec _
      (DatingService.Reachable.createUser "Bob" "bob@example.com" "password456"
        (DatingService.Reachable.createUser "Alice" "alice@example.com" "password123"
          DatingService.Reachable.empty))).2.1 0 (by decide)

/-- C9: each service operation mutates only its own store: `createUser`
leaves profiles and messages unchanged, `createProfile` leaves users and
messages unchanged, `sendMessage` leaves users and profiles unchanged, and
`getMessages` and `findMatches` leave the whole state unchanged. -/
theorem service_frame_effects (s : DatingService) (name email password : String)
    (user : User) (age : Nat) (bio : String) (sender : User) (recipientId : Nat)
    (content : String) (now : Nat) (userId : Nat) (profile : Profile)
    (minScore : Int) :
    ((s.createUser name email password).2.profiles = s.profiles ∧
        (s.createUser name email password).2.messages = s.messages) ∧
      ((s.createProfile user age bio).2.users = s.users ∧
        (s.createProfile user age bio).2.messages = s.messages) ∧
      ((s.sendMessage sender recipientId content now).2.users = s.users ∧
        (s.sendMessage sender recipientId content now).2.profiles = s.profiles) ∧
      (s.getMessages userId).2 = s ∧
      (s.findMatches profile minScore).2 = s :=
  ⟨⟨rfl, rfl⟩, ⟨rfl, rfl⟩,
    ⟨sendMessage_users s sender recipientId content now,
      sendMessage_profiles s sender recipientId content now⟩, rfl, rfl⟩

/-- C10: `sendMessage` returns `none` exactly when no stored user has the
recipient id; the sender is never validated: for any `User` value and an
existing recipient id, the returned message carries the given sender,
content and timestamp, its recipient is a stored user with the requested
id, and it is appended to the message store. -/
theorem sendMessage_spec (s : DatingService) (sender : User) (recipientId : Nat)
    (content : String) (now : Nat) :
    ((s.sendMessage sender recipientId content now).1 = none ↔
        ∀ u ∈ s.users, u.id ≠ recipientId) ∧
      ∀ m, (s.sendMessage sender recipientId content now).1 = some m →
        m.sender = sender ∧ m.content = content ∧ m.timestamp = now ∧
          m.recipient ∈ s.users ∧ m.recipient.id = recipientId ∧
          (s.sendMessage sender recipientId content now).2.messages
            = s.messages ++ [m] := by
  cases hf : s.users.find? (fun u => u.id == recipientId) with
  | none =>
      have hnone : s.sendMessage sender recipientId content now = (none, s) := by
        unfold DatingService.sendMessage
        rw [hf]
      have key : ∀ u ∈ s.users, u.id ≠ recipientId := by
        intro u hu
        have h2 := List.find?_eq_none.mp hf u hu
        simpa using h2
      rw [hnone]
      refine ⟨⟨fun _ => key, fun _ => rfl⟩, ?_⟩
      intro m hm
      simp at hm
  | some r =>
      have hsome : s.sendMessage sender recipientId content now
          = (some ⟨sender, r, content, now⟩,
              { s with messages := s.messages ++ [⟨sender, r, content, now⟩] }) := by
        unfold DatingService.sendMessage
        rw [hf]
      have hrid : r.id = recipientId := by
        have h2 := List.find?_some hf
        simpa using h2
      have hrmem : r ∈ s.users := List.mem_of_find?_eq_some hf
      rw [hsome]
      constructor
      · constructor
        · intro habs
          simp at habs
        · intro hall
          exact absurd hrid (hall r hrmem)
      · intro m hm
        simp only [Option.some.injEq] at hm
        subst hm
        exact ⟨rfl, rfl, rfl, hrmem, hrid, rfl⟩

/-- C10 (witness): the returned-value characterisation instantiated in a
one-user service with recipient id `2` (Bob's id). -/
theorem sendMessage_spec_witness :
    ((DatingService.mk [bobUser] [] []).sendMessage aliceUser 2 "hi" 5).1 = none ↔
      ∀ u ∈ (DatingService.mk [bobUser] [] []).users, u.id ≠ 2 :=
  (sendMessage_spec (DatingService.mk [bobUser] [] []) aliceUser 2 "hi" 5).1
